import Mathlib

/-!
Verification of the ciphersuite core (`src/crypto/ciphersuite.rs`): the
`CipherSuite` descriptor, its name-only equality and name-only diagnostic
rendering, the `derive_key_pair` routine, and the two registry constants.
The capability interfaces consumed by that file (`dh.rs`, `aead.rs`,
`error.rs`, `ring::digest`) are external collaborators; they are modelled
from the specification's interface contracts.
-/

/-- Byte strings, as sequences of byte values (every operation below that
produces bytes keeps each element under 256). -/
abbrev Bytes := List Nat

/-- Modelled from the spec: the error taxonomy of `error.rs`, which is not
under `src/`. Section 7 names a `KeyDerivation` category for a scalar
rejected by the key-agreement capability and a pass-through category for
other capability errors. -/
inductive Error where
  | KeyDerivation : String → Error
  | CapabilityError : String → Error
deriving DecidableEq

/-- An opaque private key produced by a key-agreement capability
(`DhPrivateKey` in `dh.rs`): a byte-bearing value whose internal
representation is owned by the capability; this core never inspects it. -/
structure DhPrivateKey where
  bytes : Bytes
deriving DecidableEq

/-- An opaque public key produced by a key-agreement capability
(`DhPublicKey` in `dh.rs`). -/
structure DhPublicKey where
  bytes : Bytes
deriving DecidableEq

/-- Modelled from the spec: the key-agreement capability interface
(`DiffieHellman` in `dh.rs`, not under `src/`), section 4.3: a fallible
private-key constructor that validates length and value, an infallible
deterministic public-key derivation, and the group's required private-key
length. -/
structure DiffieHellman where
  scalar_len : Nat
  private_key_from_bytes : Bytes → Except Error DhPrivateKey
  derive_public_key : DhPrivateKey → DhPublicKey

/-- Modelled from the spec: the authenticated-encryption capability
(`AuthenticatedEncryption` in `aead.rs`, not under `src/`), section 4.3:
seal and open over a key, nonce, associated data and payload. It is never
invoked on the derivation path, so only its shape matters here. -/
structure AuthenticatedEncryption where
  key_size : Nat
  seal_op : Bytes → Bytes → Bytes → Bytes → Bytes
  open_op : Bytes → Bytes → Bytes → Bytes → Except Error Bytes

/-- Modelled from the spec: a fixed-output-length hash descriptor
(`ring::digest::Algorithm`, external crate): a fixed digest length and a
deterministic digest function of the input bytes. -/
structure HashAlgorithm where
  output_len : Nat
  digest : Bytes → Bytes

/-- The `CipherSuite` struct of `src/crypto/ciphersuite.rs`: a name, a
key-agreement capability, an authenticated-encryption capability and a
hash algorithm. -/
structure CipherSuite where
  name : String
  dh_impl : DiffieHellman
  aead_impl : AuthenticatedEncryption
  hash_alg : HashAlgorithm

/-- The `PartialEq` impl for `CipherSuite`: `self.name.eq(other.name)` —
equality consults only the name field. -/
def CipherSuite.eq (a b : CipherSuite) : Bool :=
  a.name == b.name

/-- The `Debug` impl for `CipherSuite`: `f.write_str(self.name)` — the
rendering writes the name and nothing else. -/
def CipherSuite.fmt (s : CipherSuite) : String :=
  s.name

/-- `CipherSuite::derive_key_pair`: hash the input bytes with the suite's
hash algorithm, pass the digest bytes to the key-agreement capability's
private-key constructor (the `?` operator propagates its error), derive
the public key from the private key, and return the pair. -/
def CipherSuite.derive_key_pair (s : CipherSuite) (bytes : Bytes) :
    Except Error (DhPublicKey × DhPrivateKey) := do
  let digest := s.hash_alg.digest bytes
  let scalar_bytes := digest
  let privkey ← s.dh_impl.private_key_from_bytes scalar_bytes
  let pubkey := s.dh_impl.derive_public_key privkey
  pure (pubkey, privkey)

/-- Modelled from the spec: X25519 clamping of a 32-byte scalar — clear
the low three bits of the first byte, clear the top bit and set the
second-highest bit of the last byte. -/
def x25519_clamp (b : Bytes) : Bytes :=
  b.mapIdx (fun i x =>
    if i = 0 then x &&& 248
    else if i = 31 then (x &&& 127) ||| 64
    else x)

/-- Modelled from the spec: the X25519 key-agreement capability
(`X25519_IMPL` in `dh.rs`, not under `src/`): 32-byte scalars, a length
check followed by clamping in the private-key constructor, and a
deterministic abstract stand-in for base-point scalar multiplication. -/
def X25519_IMPL : DiffieHellman where
  scalar_len := 32
  private_key_from_bytes := fun b =>
    if b.length = 32 then .ok ⟨x25519_clamp b⟩
    else .error (.KeyDerivation "invalid private key length")
  derive_public_key := fun k => ⟨k.bytes.map (fun x => (x * 9 + 1) % 256)⟩

/-- Modelled from the spec: the P-256 key-agreement capability
(`P256_IMPL` in `dh.rs`, not under `src/`): 32-byte scalars, a length
check, rejection of the forbidden zero scalar, and a deterministic
abstract stand-in for base-point scalar multiplication. -/
def P256_IMPL : DiffieHellman where
  scalar_len := 32
  private_key_from_bytes := fun b =>
    if b.length = 32 then
      if b.all (fun x => x = 0) then .error (.KeyDerivation "forbidden scalar value")
      else .ok ⟨b⟩
    else .error (.KeyDerivation "invalid private key length")
  derive_public_key := fun k => ⟨k.bytes.map (fun x => (x * 7 + 3) % 256)⟩

/-- Modelled from the spec: the AES-128-GCM capability (`AES128GCM_IMPL`
in `aead.rs`, not under `src/`); the cipher internals are abstracted since
the derivation path never invokes them. -/
def AES128GCM_IMPL : AuthenticatedEncryption where
  key_size := 16
  seal_op := fun _k _n _a pt => pt
  open_op := fun _k _n _a ct => .ok ct

/-- Modelled from the spec: `ring::digest::SHA256` (external crate). Only
the interface properties are modelled faithfully — a deterministic digest
of fixed 32-byte output with every byte under 256; the compression
function itself is abstracted. -/
def SHA256 : HashAlgorithm where
  output_len := 32
  digest := fun b =>
    (List.range 32).map (fun i =>
      b.foldl (fun a x => (a * 31 + x + i) % 256) ((i + b.length) % 256))

/-- The `X25519_SHA256_AES128GCM` registry constant of `ciphersuite.rs`. -/
def X25519_SHA256_AES128GCM : CipherSuite where
  name := "X25519_SHA256_AES128GCM"
  dh_impl := X25519_IMPL
  aead_impl := AES128GCM_IMPL
  hash_alg := SHA256

/-- The `P256_SHA256_AES128GCM` registry constant of `ciphersuite.rs`. -/
def P256_SHA256_AES128GCM : CipherSuite where
  name := "P256_SHA256_AES128GCM"
  dh_impl := P256_IMPL
  aead_impl := AES128GCM_IMPL
  hash_alg := SHA256

/-- The derivation routine as spelled out step by step in the spec,
section 4.2: compute the digest, pass it to the private-key constructor,
on success derive the public key and return the pair, on failure return
the constructor's error. Written from the spec's words, to be compared
with `CipherSuite.derive_key_pair`, which is embedded from the source. -/
def derive_key_pair_spec (s : CipherSuite) (b : Bytes) :
    Except Error (DhPublicKey × DhPrivateKey) :=
  let digest := s.hash_alg.digest b
  match s.dh_impl.private_key_from_bytes digest with
  | .error e => .error e
  | .ok privkey => .ok (s.dh_impl.derive_public_key privkey, privkey)

/-- Unfolding lemma: `derive_key_pair` is the match on the private-key
constructor applied to the digest of the input. -/
theorem derive_key_pair_unfold (s : CipherSuite) (b : Bytes) :
    s.derive_key_pair b =
      match s.dh_impl.private_key_from_bytes (s.hash_alg.digest b) with
      | .error e => .error e
      | .ok k => .ok (s.dh_impl.derive_public_key k, k) := by
  cases h : s.dh_impl.private_key_from_bytes (s.hash_alg.digest b) with
  | error e => simp [CipherSuite.derive_key_pair, h, bind, Except.bind]
  | ok k => simp [CipherSuite.derive_key_pair, h, bind, Except.bind, pure, Except.pure]

/-- Claim C1: for every ciphersuite and every byte string, the source's
`derive_key_pair` follows exactly the spec's steps — hash the bytes with
the suite's hash algorithm, pass the digest to the key-agreement
capability's private-key constructor, on success derive the public key
from that private key, and return the (public, private) pair. -/
theorem derive_key_pair_follows_spec_steps (s : CipherSuite) (b : Bytes) :
    s.derive_key_pair b = derive_key_pair_spec s b := by
  rw [derive_key_pair_unfold]
  cases h : s.dh_impl.private_key_from_bytes (s.hash_alg.digest b) with
  | error e => simp [derive_key_pair_spec, h]
  | ok k => simp [derive_key_pair_spec, h]

/-- Claim C2: for every pair of `CipherSuite` values, the `PartialEq`
comparison holds exactly when the names agree byte-for-byte; no other
field participates, so two suites with identical names but different
wired capabilities compare equal. -/
theorem ciphersuite_eq_iff_name_eq (a b : CipherSuite) :
    CipherSuite.eq a b = true ↔ a.name = b.name := by
  simp [CipherSuite.eq]

/-- Claim C3: the `Debug` rendering of any `CipherSuite` is exactly its
name string and nothing else, so no substring derived from the
key-agreement, AEAD or hash capability objects can appear. -/
theorem ciphersuite_fmt_eq_name (s : CipherSuite) :
    CipherSuite.fmt s = s.name :=
  rfl

/-- Claim C4: `derive_key_pair` is deterministic — two calls on equal
suite and equal input bytes return identical results (the routine reads
no hidden input). -/
theorem derive_key_pair_deterministic (s : CipherSuite) (b1 b2 : Bytes)
    (h : b1 = b2) :
    s.derive_key_pair b1 = s.derive_key_pair b2 := by
  rw [h]

/-- Witness for claim C4 at the input bytes of the string "hello". -/
theorem derive_key_pair_deterministic_witness :
    ([104, 101, 108, 108, 111] : Bytes) = [104, 101, 108, 108, 111] ∧
    X25519_SHA256_AES128GCM.derive_key_pair [104, 101, 108, 108, 111] =
      X25519_SHA256_AES128GCM.derive_key_pair [104, 101, 108, 108, 111] :=
  ⟨rfl, derive_key_pair_deterministic X25519_SHA256_AES128GCM _ _ rfl⟩

/-- Claim C5: whenever `derive_key_pair` succeeds with a pair
(pub, priv), the suite's key-agreement `derive_public_key` applied to
priv yields exactly pub. -/
theorem derive_key_pair_consistent (s : CipherSuite) (b : Bytes)
    (p : DhPublicKey) (k : DhPrivateKey)
    (h : s.derive_key_pair b = .ok (p, k)) :
    s.dh_impl.derive_public_key k = p := by
  rw [derive_key_pair_unfold] at h
  cases hpk : s.dh_impl.private_key_from_bytes (s.hash_alg.digest b) with
  | error e => rw [hpk] at h; simp at h
  | ok k0 =>
      rw [hpk] at h
      simp at h
      rw [h.2] at h
      rw [← h.1, h.2]

/-- Witness for claim C5: the X25519 suite on the empty input succeeds
with a concrete pair, and re-deriving the public key from the private key
reproduces it. -/
theorem derive_key_pair_consistent_witness :
    X25519_SHA256_AES128GCM.dh_impl.derive_public_key
        ⟨[0, 1, 2, 3, 4, 5, 6, 7, 8, 9, 10, 11, 12, 13, 14, 15, 16, 17, 18,
          19, 20, 21, 22, 23, 24, 25, 26, 27, 28, 29, 30, 95]⟩ =
      ⟨[1, 10, 19, 28, 37, 46, 55, 64, 73, 82, 91, 100, 109, 118, 127, 136,
        145, 154, 163, 172, 181, 190, 199, 208, 217, 226, 235, 244, 253, 6,
        15, 88]⟩ :=
  derive_key_pair_consistent X25519_SHA256_AES128GCM [] _ _ rfl

/-- Claim C6: `derive_key_pair` returns an error exactly when the
key-agreement capability's private-key constructor rejects the digest,
and in that case the capability's error value is surfaced unchanged. -/
theorem derive_key_pair_error_iff (s : CipherSuite) (b : Bytes) (e : Error) :
    s.derive_key_pair b = .error e ↔
      s.dh_impl.private_key_from_bytes (s.hash_alg.digest b) = .error e := by
  rw [derive_key_pair_unfold]
  cases hpk : s.dh_impl.private_key_from_bytes (s.hash_alg.digest b) with
  | error e0 => simp
  | ok k => simp

/-- Claim C7: `derive_key_pair` is a total function — on every suite and
every input, including the empty byte string, it returns an explicit
result, either a key pair or an error; no input escapes to a panic. -/
theorem derive_key_pair_total (s : CipherSuite) (b : Bytes) :
    (∃ p, s.derive_key_pair b = .ok p) ∨
      (∃ e, s.derive_key_pair b = .error e) := by
  cases h : s.derive_key_pair b with
  | error e => exact Or.inr ⟨e, rfl⟩
  | ok p => exact Or.inl ⟨p, rfl⟩

/-- A second authenticated-encryption capability, used only to witness
that the derivation path ignores `aead_impl`. -/
def TEST_AEAD : AuthenticatedEncryption where
  key_size := 32
  seal_op := fun _k _n _a pt => pt ++ pt
  open_op := fun _k _n _a ct => .ok ct

/-- A suite agreeing with `X25519_SHA256_AES128GCM` on hash and
key-agreement capabilities but wired to a different AEAD capability. -/
def X25519_SHA256_TESTAEAD : CipherSuite where
  name := "X25519_SHA256_TESTAEAD"
  dh_impl := X25519_IMPL
  aead_impl := TEST_AEAD
  hash_alg := SHA256

/-- A hash descriptor with a constant digest, used only to witness that
derivation factors through the digest. -/
def CONST_HASH : HashAlgorithm where
  output_len := 32
  digest := fun _ => List.replicate 32 1

/-- A suite wired to the constant hash, used only as witness material. -/
def CONST_HASH_SUITE : CipherSuite where
  name := "CONST_HASH_SUITE"
  dh_impl := X25519_IMPL
  aead_impl := AES128GCM_IMPL
  hash_alg := CONST_HASH

/-- Claim C8: for both registry suites, the hash algorithm's 32-byte
digest length equals the key-agreement group's required private-key
length, every digest the suite's own hash produces has exactly that
length, and consequently the private-key constructor's length-rejection
branch never fires on such a digest. -/
theorem registry_length_invariant :
    (X25519_SHA256_AES128GCM.hash_alg.output_len =
        X25519_SHA256_AES128GCM.dh_impl.scalar_len ∧
      P256_SHA256_AES128GCM.hash_alg.output_len =
        P256_SHA256_AES128GCM.dh_impl.scalar_len) ∧
    (∀ b : Bytes,
      (X25519_SHA256_AES128GCM.hash_alg.digest b).length =
          X25519_SHA256_AES128GCM.dh_impl.scalar_len ∧
        (P256_SHA256_AES128GCM.hash_alg.digest b).length =
          P256_SHA256_AES128GCM.dh_impl.scalar_len) ∧
    (∀ b : Bytes,
      X25519_SHA256_AES128GCM.dh_impl.private_key_from_bytes
          (X25519_SHA256_AES128GCM.hash_alg.digest b) ≠
        .error (.KeyDerivation "invalid private key length") ∧
      P256_SHA256_AES128GCM.dh_impl.private_key_from_bytes
          (P256_SHA256_AES128GCM.hash_alg.digest b) ≠
        .error (.KeyDerivation "invalid private key length")) := by
  have hlen : ∀ b : Bytes, (SHA256.digest b).length = 32 := by
    intro b
    simp [SHA256]
  refine ⟨⟨rfl, rfl⟩, fun b => ⟨hlen b, hlen b⟩, fun b => ⟨?_, ?_⟩⟩
  · show X25519_IMPL.private_key_from_bytes (SHA256.digest b) ≠ _
    simp [X25519_IMPL, hlen b]
  · show P256_IMPL.private_key_from_bytes (SHA256.digest b) ≠ _
    simp only [P256_IMPL, hlen b, if_true, reduceIte]
    by_cases hz : (SHA256.digest b).all (fun x => x = 0) <;> simp [hz]

/-- Claim C9: the derivation routine never consults the AEAD capability —
any two suites agreeing on hash algorithm and key-agreement capability
derive identical results on the same input bytes, whatever their
`aead_impl`. -/
theorem derive_key_pair_aead_independent (s1 s2 : CipherSuite) (b : Bytes)
    (hh : s1.hash_alg = s2.hash_alg) (hd : s1.dh_impl = s2.dh_impl) :
    s1.derive_key_pair b = s2.derive_key_pair b := by
  rw [derive_key_pair_unfold, derive_key_pair_unfold, hh, hd]

/-- Witness for claim C9: two suites differing only in their AEAD
capability derive identically on the bytes of "hello". -/
theorem derive_key_pair_aead_independent_witness :
    X25519_SHA256_AES128GCM.hash_alg = X25519_SHA256_TESTAEAD.hash_alg ∧
    X25519_SHA256_AES128GCM.dh_impl = X25519_SHA256_TESTAEAD.dh_impl ∧
    X25519_SHA256_AES128GCM.derive_key_pair [104, 101, 108, 108, 111] =
      X25519_SHA256_TESTAEAD.derive_key_pair [104, 101, 108, 108, 111] :=
  ⟨rfl, rfl,
    derive_key_pair_aead_independent X25519_SHA256_AES128GCM
      X25519_SHA256_TESTAEAD [104, 101, 108, 108, 111] rfl rfl⟩

/-- Claim C10: derivation factors entirely through the hash digest — if a
suite's hash maps two byte strings to equal digests, `derive_key_pair`
returns identical results on them; the input bytes are consulted only as
hash input. -/
theorem derive_key_pair_factors_through_digest (s : CipherSuite)
    (b1 b2 : Bytes) (h : s.hash_alg.digest b1 = s.hash_alg.digest b2) :
    s.derive_key_pair b1 = s.derive_key_pair b2 := by
  rw [derive_key_pair_unfold, derive_key_pair_unfold, h]

/-- Witness for claim C10: under the constant-digest hash the distinct
inputs [1] and [2] collide, and derivation agrees on them. -/
theorem derive_key_pair_factors_through_digest_witness :
    CONST_HASH_SUITE.hash_alg.digest [1] = CONST_HASH_SUITE.hash_alg.digest [2] ∧
    CONST_HASH_SUITE.derive_key_pair [1] = CONST_HASH_SUITE.derive_key_pair [2] :=
  ⟨rfl, derive_key_pair_factors_through_digest CONST_HASH_SUITE [1] [2] rfl⟩
